import Mathlib

/-!
Shallow embedding of the signal-generation pipeline of the trade-alert
repository (src/technical_analysis.py, src/watch_coin.py, src/config.py),
together with proofs checking the natural-language specification against it.

Modelling conventions:
  * Python floats are modelled as rationals (ℚ); every comparison and
    arithmetic operation in the embedded code is exact, mirroring the
    operations the source performs.  Lean uses the x / 0 = 0 convention
    where Python would raise ZeroDivisionError; no claim below depends on a
    division by zero.
  * A Python value that may be None (or NaN, in the case of pandas/finta
    series cells) is modelled as Option ℚ, with none for None/NaN.
  * Python dictionaries with a fixed key set (the indicator dict, the config
    module) are modelled as structures.  Attribute access on the config
    module that may fail with AttributeError is modelled as an Option field:
    none means the attribute is not defined in src/config.py.
  * Functions whose Python body can raise are modelled in Except PyError;
    functions that cannot raise are plain total functions.
-/

/-- Errors a modelled Python function can raise. -/
inductive PyError where
  | attributeError
  deriving DecidableEq, Repr

/-- The trading signal returned by generate_trading_signal: one of the
strings "BUY", "SELL", "HOLD" in the source. -/
inductive Signal where
  | BUY
  | SELL
  | HOLD
  deriving DecidableEq, Repr

/-- The trend labels produced by analyze_trend in
src/technical_analysis.py lines 5-12.  The source returns formatted
strings; the classification (which branch fired) is what is modelled,
the numeric formatting of the label text is dropped. -/
inductive TrendLabel where
  | Uptrend
  | Pullback
  | Downtrend
  | Sideways
  deriving DecidableEq, Repr

/-- The indicator dictionary built by calculate_indicators
(src/technical_analysis.py lines 104-113): eight optional floats. -/
structure IndicatorSet where
  rsi : Option ℚ
  macd_line : Option ℚ
  macd_histogram : Option ℚ
  macd_signal : Option ℚ
  bb_lower : Option ℚ
  bb_middle : Option ℚ
  bb_upper : Option ℚ
  atr : Option ℚ
  deriving DecidableEq, Repr

/-- The all-None indicator dict returned by calculate_indicators on
insufficient data or on a caught exception (lines 49-52, 75-78, 119-122). -/
def allAbsentIndicators : IndicatorSet :=
  { rsi := none, macd_line := none, macd_histogram := none, macd_signal := none,
    bb_lower := none, bb_middle := none, bb_upper := none, atr := none }

/-- The config module src/config.py.  Fields are the module attributes it
actually defines.  DCA_ATR_MULTIPLIER and BREAKOUT_ATR_MULTIPLIER are read
by src/watch_coin.py (lines 89 and 134/137) but are not defined in
src/config.py; they are modelled as Option ℚ so that the shipped module can
be represented (none = attribute missing, access raises AttributeError). -/
structure Config where
  COIN_ID : String
  VS_CURRENCY : String
  TARGET_PERCENT : ℚ
  CHECK_INTERVAL : ℕ
  SUMMARY_INTERVAL_HOURS : ℕ
  ENABLE_BYBIT_TRADING_DEFAULT : Bool
  TRADE_SIZE_USD : ℚ
  DCA_ATR_MULTIPLIER : Option ℚ
  BREAKOUT_ATR_MULTIPLIER : Option ℚ

/-- The config module exactly as shipped in src/config.py: the two ATR
multiplier attributes are absent. -/
def shippedConfig : Config :=
  { COIN_ID := "sui"
    VS_CURRENCY := "usd"
    TARGET_PERCENT := 5
    CHECK_INTERVAL := 60 * 60
    SUMMARY_INTERVAL_HOURS := 1
    ENABLE_BYBIT_TRADING_DEFAULT := false
    TRADE_SIZE_USD := 10
    DCA_ATR_MULTIPLIER := none
    BREAKOUT_ATR_MULTIPLIER := none }

/-- analyze_trend, src/technical_analysis.py lines 5-12: ordered rule
chain, first match wins; only the label is modelled, not the f-string. -/
def analyze_trend (_price p1h p24h p7d : ℚ) : TrendLabel :=
  if p1h > 1 ∧ p24h > 2 then TrendLabel.Uptrend
  else if p1h < -1 ∧ p24h > 2 then TrendLabel.Pullback
  else if p24h < 0 ∧ p7d < 0 then TrendLabel.Downtrend
  else TrendLabel.Sideways

/-- The three projected prices computed by simple_price_prediction
(the source formats them into a string; the values are modelled). -/
structure Prediction where
  p1d_price : ℚ
  p7d_price : ℚ
  p30d_price : ℚ
  deriving DecidableEq, Repr

/-- simple_price_prediction, src/technical_analysis.py lines 15-40.
P1H_THRESHOLD = 0.5 in the source (line 20). -/
def simple_price_prediction (price p1h p24h p7d_percentage : ℚ) : Prediction :=
  let p1d_price :=
    if p24h < 0 ∧ p1h > 1/2 then
      price * (1 + ((p1h + p24h) / 2) / 100)
    else
      price * (1 + p24h / 100)
  { p1d_price := p1d_price
    p7d_price := price * (1 + p7d_percentage / 100)
    p30d_price := price * (1 + p7d_percentage / 100) ^ 4 }

/-- Core of generate_trading_signal once the four used indicator values
have been read from the dict: the None check of line 138 followed by the
BUY test of line 152 and the SELL test of line 166, in source order. -/
def signalCore (macd_histogram macd_line rsi bb_middle : Option ℚ)
    (current_price : ℚ) : Signal :=
  match macd_histogram, macd_line, rsi, bb_middle with
  | some mh, some ml, some r, some bm =>
      if mh > 0 ∧ r < 70 ∧ current_price < bm ∧ ml > 0 then Signal.BUY
      else if mh < 0 ∧ r > 30 ∧ current_price > bm ∧ ml < 0 then Signal.SELL
      else Signal.HOLD
  | _, _, _, _ => Signal.HOLD

/-- generate_trading_signal, src/technical_analysis.py lines 125-173: reads
macd_histogram, macd_line, rsi and bb_middle from the indicator dict (the
bb_lower and bb_upper reads on lines 133-134 are unused) and decides. -/
def generate_trading_signal (indicators : IndicatorSet) (current_price : ℚ) : Signal :=
  signalCore indicators.macd_histogram indicators.macd_line
    indicators.rsi indicators.bb_middle current_price

/-- Last n elements of a list, as the Python slice xs[-n:] when the list
has at least n elements (the guarded case in every caller below). -/
def lastN (n : ℕ) (l : List ℚ) : List ℚ :=
  l.drop (l.length - n)

/-- Python max over a list, total with an unreachable default for [] (every
caller below guards the list to be nonempty). -/
def pyMax : List ℚ → ℚ
  | [] => 0
  | x :: xs => xs.foldl max x

/-- Python min over a list, total with an unreachable default for []. -/
def pyMin : List ℚ → ℚ
  | [] => 0
  | x :: xs => xs.foldl min x

/-- The range opportunity record: detect_range_opportunity formats the
min, max, buy and sell values into its message string. -/
structure RangeOpp where
  mn : ℚ
  mx : ℚ
  buy : ℚ
  sell : ℚ
  deriving DecidableEq, Repr

/-- detect_range_opportunity, src/watch_coin.py lines 94-116: needs at
least 10 history points, takes the last 10, and when the relative spread
is within the tolerance proposes buy = min * 1.01 and sell = max * 0.99,
abstaining when buy >= sell (the guard on line 108). -/
def detect_range_opportunity (price_history : List ℚ) (tol : ℚ) : Option RangeOpp :=
  if price_history.length < 10 then none
  else
    let recent := lastN 10 price_history
    let mx := pyMax recent
    let mn := pyMin recent
    let avg := recent.sum / (recent.length : ℚ)
    if (mx - mn) / avg ≤ tol then
      let buy := mn * (101 / 100)
      let sell := mx * (99 / 100)
      if buy ≥ sell then none
      else some { mn := mn, mx := mx, buy := buy, sell := sell }
    else none

/-- The DCA opportunity record: current price, 5-point average and ATR as
formatted into the message string of src/watch_coin.py line 90. -/
structure DcaOpp where
  curr : ℚ
  avg : ℚ
  atr : ℚ
  deriving DecidableEq, Repr

/-- detect_dca_opportunity, src/watch_coin.py lines 72-91: needs at least
5 history points, abstains when ATR is None or zero, then reads
config.DCA_ATR_MULTIPLIER — an attribute src/config.py does not define,
so the read raises AttributeError when reached on the shipped config. -/
def detect_dca_opportunity (cfg : Config) (price_history : List ℚ)
    (indicators : IndicatorSet) : Except PyError (Option DcaOpp) :=
  if price_history.length < 5 then Except.ok none
  else
    match indicators.atr with
    | none => Except.ok none
    | some atr =>
      if atr = 0 then Except.ok none
      else
        match cfg.DCA_ATR_MULTIPLIER with
        | none => Except.error PyError.attributeError
        | some k =>
          let last5 := lastN 5 price_history
          let avg_price := last5.sum / (last5.length : ℚ)
          let curr := price_history.getLastD 0
          if curr < avg_price - k * atr then
            Except.ok (some { curr := curr, avg := avg_price, atr := atr })
          else Except.ok none

/-- The breakout opportunity record: direction with the breached level,
ATR and current price as formatted into the message strings of
src/watch_coin.py lines 135 and 138. -/
inductive BreakoutOpp where
  | up (mx atr current_price : ℚ)
  | down (mn atr current_price : ℚ)
  deriving DecidableEq, Repr

/-- detect_breakout, src/watch_coin.py lines 119-139: needs at least n
history points, abstains when ATR is None or zero, then reads
config.BREAKOUT_ATR_MULTIPLIER — an attribute src/config.py does not
define, so the read raises AttributeError when reached on the shipped
config.  (In the source the attribute read sits inside the comparison on
line 134; it is evaluated whenever that line is reached, which the model
reflects by looking the attribute up before the comparisons.) -/
def detect_breakout (cfg : Config) (price_history : List ℚ)
    (current_price : ℚ) (indicators : IndicatorSet) (n : ℕ) :
    Except PyError (Option BreakoutOpp) :=
  if price_history.length < n then Except.ok none
  else
    match indicators.atr with
    | none => Except.ok none
    | some atr =>
      if atr = 0 then Except.ok none
      else
        match cfg.BREAKOUT_ATR_MULTIPLIER with
        | none => Except.error PyError.attributeError
        | some k =>
          let recent := lastN n price_history
          let mx := pyMax recent
          let mn := pyMin recent
          if current_price > mx + k * atr then
            Except.ok (some (BreakoutOpp.up mx atr current_price))
          else if current_price < mn - k * atr then
            Except.ok (some (BreakoutOpp.down mn atr current_price))
          else Except.ok none

/-- One raw OHLC row as passed to calculate_indicators: a timestamp and
the four price columns, each either numeric (some q) or a value that
pd.to_numeric coerces to NaN (none), mirroring lines 55-61 of
src/technical_analysis.py. -/
structure OhlcRow where
  ts : ℤ
  o : Option ℚ
  h : Option ℚ
  l : Option ℚ
  c : Option ℚ
  deriving DecidableEq, Repr

/-- A cleaned OHLC row (open, high, low, close), all numeric. -/
def CleanRow : Type := ℚ × ℚ × ℚ × ℚ

/-- The dropna step of src/technical_analysis.py line 64: rows with NaN in
any OHLC column after to_numeric coercion are dropped. -/
def cleanRows (rows : List OhlcRow) : List CleanRow :=
  rows.filterMap fun r =>
    match r.o, r.h, r.l, r.c with
    | some o, some h, some l, some c => some (o, h, l, c)
    | _, _, _, _ => none

/-- The latest (iloc[-1]) values of the finta indicator series read on
lines 89-102 of src/technical_analysis.py: none models a NaN cell. -/
structure FintaOut where
  latest_rsi : Option ℚ
  latest_macd_line : Option ℚ
  latest_macd_signal : Option ℚ
  latest_bb_lower : Option ℚ
  latest_bb_middle : Option ℚ
  latest_bb_upper : Option ℚ
  latest_atr : Option ℚ

/-- calculate_indicators, src/technical_analysis.py lines 43-122,
parametrised over the third-party finta computation (TA.RSI, TA.MACD,
TA.BBANDS, TA.ATR plus the iloc reads): finta is an arbitrary function
from the cleaned rows to either the latest series values or a raised
exception, the latter modelling any computation fault inside the try
block, which the except handler on lines 116-122 turns into the all-None
dict.  The repository code itself — the length guards, the cleaning, the
manual histogram = line - signal on lines 94-97 and the dict assembly —
is embedded directly. -/
def calculate_indicators (finta : List CleanRow → Except PyError FintaOut)
    (ohlc_data : List OhlcRow) : IndicatorSet :=
  if ohlc_data.length < 20 then allAbsentIndicators
  else
    let df := cleanRows ohlc_data
    if df.length < 35 then allAbsentIndicators
    else
      match finta df with
      | Except.error _ => allAbsentIndicators
      | Except.ok out =>
        let latest_macd_histogram : Option ℚ :=
          match out.latest_macd_line, out.latest_macd_signal with
          | some l, some s => some (l - s)
          | _, _ => none
        { rsi := out.latest_rsi
          macd_line := out.latest_macd_line
          macd_histogram := latest_macd_histogram
          macd_signal := out.latest_macd_signal
          bb_lower := out.latest_bb_lower
          bb_middle := out.latest_bb_middle
          bb_upper := out.latest_bb_upper
          atr := out.latest_atr }

/-- Characterisation of signalCore when all four indicator values are
present: BUY and SELL hold exactly on their condition conjunctions and
HOLD covers the rest.  Shared by the claim theorems below. -/
theorem signalCore_some_spec (mh ml r bm p : ℚ) :
    (signalCore (some mh) (some ml) (some r) (some bm) p = Signal.BUY ↔
        mh > 0 ∧ ml > 0 ∧ r < 70 ∧ p < bm) ∧
    (signalCore (some mh) (some ml) (some r) (some bm) p = Signal.SELL ↔
        mh < 0 ∧ ml < 0 ∧ r > 30 ∧ p > bm) ∧
    (¬(mh > 0 ∧ ml > 0 ∧ r < 70 ∧ p < bm) →
      ¬(mh < 0 ∧ ml < 0 ∧ r > 30 ∧ p > bm) →
        signalCore (some mh) (some ml) (some r) (some bm) p = Signal.HOLD) := by
  unfold signalCore
  dsimp only
  split_ifs with h1 h2
  · have hb : mh > 0 ∧ ml > 0 ∧ r < 70 ∧ p < bm :=
      ⟨h1.1, h1.2.2.2, h1.2.1, h1.2.2.1⟩
    have hns : ¬(mh < 0 ∧ ml < 0 ∧ r > 30 ∧ p > bm) :=
      fun hs => absurd h1.1 (lt_asymm hs.1)
    exact ⟨⟨fun _ => hb, fun _ => rfl⟩,
      ⟨fun hEq => absurd hEq (by decide), fun hs => absurd hs hns⟩,
      fun hnb _ => absurd hb hnb⟩
  · have hs : mh < 0 ∧ ml < 0 ∧ r > 30 ∧ p > bm :=
      ⟨h2.1, h2.2.2.2, h2.2.1, h2.2.2.1⟩
    have hnb : ¬(mh > 0 ∧ ml > 0 ∧ r < 70 ∧ p < bm) :=
      fun hb => absurd hb.1 (lt_asymm h2.1)
    exact ⟨⟨fun hEq => absurd hEq (by decide), fun hb => absurd hb hnb⟩,
      ⟨fun _ => hs, fun _ => rfl⟩,
      fun _ hns => absurd hs hns⟩
  · have hnb : ¬(mh > 0 ∧ ml > 0 ∧ r < 70 ∧ p < bm) :=
      fun hb => h1 ⟨hb.1, hb.2.2.1, hb.2.2.2, hb.2.1⟩
    have hns : ¬(mh < 0 ∧ ml < 0 ∧ r > 30 ∧ p > bm) :=
      fun hs => h2 ⟨hs.1, hs.2.2.1, hs.2.2.2, hs.2.1⟩
    exact ⟨⟨fun hEq => absurd hEq (by decide), fun hb => absurd hb hnb⟩,
      ⟨fun hEq => absurd hEq (by decide), fun hs => absurd hs hns⟩,
      fun _ _ => rfl⟩

/-- C1: generate_trading_signal returns HOLD when any of macd_histogram,
macd_line, rsi or bb_middle is absent; with all four present it returns
BUY iff macd_histogram > 0, macd_line > 0, rsi < 70 and
current_price < bb_middle, SELL iff macd_histogram < 0, macd_line < 0,
rsi > 30 and current_price > bb_middle, and HOLD in every other case. -/
theorem generate_trading_signal_contract (ind : IndicatorSet) (price : ℚ) :
    ((ind.macd_histogram = none ∨ ind.macd_line = none ∨ ind.rsi = none ∨
        ind.bb_middle = none) →
      generate_trading_signal ind price = Signal.HOLD) ∧
    (∀ mh ml r bm, ind.macd_histogram = some mh → ind.macd_line = some ml →
        ind.rsi = some r → ind.bb_middle = some bm →
      (generate_trading_signal ind price = Signal.BUY ↔
          mh > 0 ∧ ml > 0 ∧ r < 70 ∧ price < bm) ∧
      (generate_trading_signal ind price = Signal.SELL ↔
          mh < 0 ∧ ml < 0 ∧ r > 30 ∧ price > bm) ∧
      (¬(mh > 0 ∧ ml > 0 ∧ r < 70 ∧ price < bm) →
        ¬(mh < 0 ∧ ml < 0 ∧ r > 30 ∧ price > bm) →
          generate_trading_signal ind price = Signal.HOLD)) := by
  constructor
  · intro h
    obtain ⟨r0, ml0, mh0, ms0, bl0, bm0, bu0, atr0⟩ := ind
    rcases mh0 with _ | mh
    · rfl
    rcases ml0 with _ | ml
    · rfl
    rcases r0 with _ | r
    · rfl
    rcases bm0 with _ | bm
    · rfl
    simp at h
  · intro mh ml r bm h1 h2 h3 h4
    have hrw : generate_trading_signal ind price
        = signalCore (some mh) (some ml) (some r) (some bm) price := by
      unfold generate_trading_signal
      rw [h1, h2, h3, h4]
    rw [hrw]
    exact signalCore_some_spec mh ml r bm price

/-- Indicator set of the BUY example in the spec (section 8): all four
required fields present, atr and the bands partially absent. -/
def exampleBuyInd : IndicatorSet :=
  { rsi := some 65, macd_line := some (6/5), macd_histogram := some (3/10),
    macd_signal := some (9/10), bb_lower := none, bb_middle := some 100,
    bb_upper := none, atr := none }

/-- Witness for C1: on the spec example indicator set at price 95 the
contract yields BUY. -/
theorem generate_trading_signal_contract_witness :
    generate_trading_signal exampleBuyInd 95 = Signal.BUY :=
  ((generate_trading_signal_contract exampleBuyInd 95).2 (3/10) (6/5) 65 100
    rfl rfl rfl rfl).1.mpr (by norm_num)

/-- C10: the signal depends only on macd_histogram, macd_line, rsi,
bb_middle and the current price; the other four fields are immaterial. -/
theorem signal_depends_only_on_used_fields (ind1 ind2 : IndicatorSet) (price : ℚ)
    (hmh : ind1.macd_histogram = ind2.macd_histogram)
    (hml : ind1.macd_line = ind2.macd_line)
    (hr : ind1.rsi = ind2.rsi)
    (hbm : ind1.bb_middle = ind2.bb_middle) :
    generate_trading_signal ind1 price = generate_trading_signal ind2 price := by
  unfold generate_trading_signal
  rw [hmh, hml, hr, hbm]

/-- A concrete indicator set with every field present. -/
def fullInd : IndicatorSet :=
  { rsi := some 65, macd_line := some (6/5), macd_histogram := some (3/10),
    macd_signal := some (9/10), bb_lower := some 90, bb_middle := some 100,
    bb_upper := some 110, atr := some 7 }

/-- The same four decision-relevant fields as fullInd, everything else
changed or removed. -/
def prunedInd : IndicatorSet :=
  { rsi := some 65, macd_line := some (6/5), macd_histogram := some (3/10),
    macd_signal := none, bb_lower := none, bb_middle := some 100,
    bb_upper := none, atr := some 1 }

/-- Witness for C10 at two concrete indicator sets that differ in
macd_signal, bb_lower, bb_upper and atr. -/
theorem signal_depends_only_on_used_fields_witness :
    generate_trading_signal fullInd 95 = generate_trading_signal prunedInd 95 :=
  signal_depends_only_on_used_fields fullInd prunedInd 95 rfl rfl rfl rfl

/-- C8: analyze_trend evaluates its four rules in order with first match
winning: Uptrend, then Pullback, then Downtrend, else Sideways. -/
theorem analyze_trend_first_match (price p1h p24h p7d : ℚ) :
    (p1h > 1 ∧ p24h > 2 →
      analyze_trend price p1h p24h p7d = TrendLabel.Uptrend) ∧
    (¬(p1h > 1 ∧ p24h > 2) → p1h < -1 ∧ p24h > 2 →
      analyze_trend price p1h p24h p7d = TrendLabel.Pullback) ∧
    (¬(p1h > 1 ∧ p24h > 2) → ¬(p1h < -1 ∧ p24h > 2) → p24h < 0 ∧ p7d < 0 →
      analyze_trend price p1h p24h p7d = TrendLabel.Downtrend) ∧
    (¬(p1h > 1 ∧ p24h > 2) → ¬(p1h < -1 ∧ p24h > 2) → ¬(p24h < 0 ∧ p7d < 0) →
      analyze_trend price p1h p24h p7d = TrendLabel.Sideways) := by
  unfold analyze_trend
  refine ⟨fun h1 => ?_, fun h1 h2 => ?_, fun h1 h2 h3 => ?_, fun h1 h2 h3 => ?_⟩
  · rw [if_pos h1]
  · rw [if_neg h1, if_pos h2]
  · rw [if_neg h1, if_neg h2, if_pos h3]
  · rw [if_neg h1, if_neg h2, if_neg h3]

/-- Witness for C8: the spec example classify_trend(50, 1.5, 3, 1) lands
in the Uptrend branch. -/
theorem analyze_trend_first_match_witness :
    analyze_trend 50 (3/2) 3 1 = TrendLabel.Uptrend :=
  (analyze_trend_first_match 50 (3/2) 3 1).1 (by norm_num)

/-- C9: the projection formulas of simple_price_prediction: p1d uses the
averaged change exactly when p24h < 0 and p1h > 0.5 and the plain 24h
compounding otherwise; p7d and p30d compound the 7-day rate once and four
times respectively. -/
theorem simple_price_prediction_formulas (price p1h p24h p7d : ℚ) :
    (p24h < 0 ∧ p1h > 1/2 →
      (simple_price_prediction price p1h p24h p7d).p1d_price
        = price * (1 + ((p1h + p24h) / 2) / 100)) ∧
    (¬(p24h < 0 ∧ p1h > 1/2) →
      (simple_price_prediction price p1h p24h p7d).p1d_price
        = price * (1 + p24h / 100)) ∧
    (simple_price_prediction price p1h p24h p7d).p7d_price
        = price * (1 + p7d / 100) ∧
    (simple_price_prediction price p1h p24h p7d).p30d_price
        = price * (1 + p7d / 100) ^ 4 := by
  unfold simple_price_prediction
  refine ⟨fun h => ?_, fun h => ?_, rfl, rfl⟩
  · simp only [if_pos h]
  · simp only [if_neg h]

/-- Witness for C9: at price 100, p1h 1, p24h -2, p7d 7 the bounce branch
applies and p1d is the averaged-change projection. -/
theorem simple_price_prediction_formulas_witness :
    (simple_price_prediction 100 1 (-2) 7).p1d_price
      = 100 * (1 + ((1 + (-2)) / 2) / 100) :=
  (simple_price_prediction_formulas 100 1 (-2) 7).1 (by norm_num)

/-- C2: calculate_indicators is total and returns the all-absent
IndicatorSet whenever fewer than 35 valid rows survive cleaning or the
indicator computation inside the try block faults. -/
theorem calculate_indicators_all_absent
    (finta : List CleanRow → Except PyError FintaOut) (ohlc : List OhlcRow)
    (h : (cleanRows ohlc).length < 35 ∨
      ∃ e, finta (cleanRows ohlc) = Except.error e) :
    calculate_indicators finta ohlc = allAbsentIndicators := by
  unfold calculate_indicators
  dsimp only
  split_ifs with h1 h2
  · rfl
  · rfl
  · rcases h with h | ⟨e, he⟩
    · exact absurd h h2
    · rw [he]

/-- A finta computation that never faults and reports no values. -/
def blankFinta : List CleanRow → Except PyError FintaOut :=
  fun _ => Except.ok
    { latest_rsi := none, latest_macd_line := none, latest_macd_signal := none,
      latest_bb_lower := none, latest_bb_middle := none, latest_bb_upper := none,
      latest_atr := none }

/-- Witness for C2: the empty OHLC list has 0 valid rows, so the result is
all-absent. -/
theorem calculate_indicators_all_absent_witness :
    calculate_indicators blankFinta [] = allAbsentIndicators :=
  calculate_indicators_all_absent blankFinta [] (Or.inl (by decide))

/-- C5: whenever the returned IndicatorSet has both macd_line and
macd_signal present, macd_histogram is present and equals their exact
difference. -/
theorem macd_histogram_eq_line_sub_signal
    (finta : List CleanRow → Except PyError FintaOut) (ohlc : List OhlcRow)
    (l s : ℚ)
    (hl : (calculate_indicators finta ohlc).macd_line = some l)
    (hs : (calculate_indicators finta ohlc).macd_signal = some s) :
    (calculate_indicators finta ohlc).macd_histogram = some (l - s) := by
  unfold calculate_indicators at hl hs ⊢
  dsimp only at hl hs ⊢
  split_ifs at hl hs ⊢ with h1 h2
  · simp [allAbsentIndicators] at hl
  · simp [allAbsentIndicators] at hl
  · rcases hf : finta (cleanRows ohlc) with e | out
    · rw [hf] at hl
      simp [allAbsentIndicators] at hl
    · rw [hf] at hl hs
      dsimp only at hl hs ⊢
      rw [hl, hs]

/-- One valid OHLC row. -/
def sampleRow : OhlcRow :=
  { ts := 0, o := some 1, h := some 2, l := some 1, c := some 2 }

/-- 40 valid OHLC rows: enough to pass both length guards. -/
def sampleOhlc : List OhlcRow := List.replicate 40 sampleRow

/-- A finta computation returning fixed latest values with
macd_line = 3 and macd_signal = 1. -/
def sampleFinta : List CleanRow → Except PyError FintaOut :=
  fun _ => Except.ok
    { latest_rsi := some 50, latest_macd_line := some 3,
      latest_macd_signal := some 1, latest_bb_lower := some 90,
      latest_bb_middle := some 100, latest_bb_upper := some 110,
      latest_atr := some 2 }

/-- Witness for C5: on 40 valid rows with macd_line 3 and macd_signal 1
the returned histogram is their difference 2. -/
theorem macd_histogram_eq_line_sub_signal_witness :
    (calculate_indicators sampleFinta sampleOhlc).macd_histogram = some 2 := by
  have h := macd_histogram_eq_line_sub_signal sampleFinta sampleOhlc 3 1
    (by decide) (by decide)
  norm_num at h
  exact h

/-- C6: whenever the atr field is absent or zero, detect_breakout and
detect_dca_opportunity both return no opportunity without raising, for
every config, price history, current price and window size. -/
theorem detectors_abstain_without_atr
    (cfg : Config) (ph : List ℚ) (cp : ℚ) (ind : IndicatorSet) (n : ℕ)
    (h : ind.atr = none ∨ ind.atr = some 0) :
    detect_breakout cfg ph cp ind n = Except.ok none ∧
    detect_dca_opportunity cfg ph ind = Except.ok none := by
  constructor
  · unfold detect_breakout
    rcases h with h | h <;> rw [h]
    · split_ifs <;> rfl
    · split_ifs with h1
      · rfl
      · dsimp only
        rw [if_pos rfl]
  · unfold detect_dca_opportunity
    rcases h with h | h <;> rw [h]
    · split_ifs <;> rfl
    · split_ifs with h1
      · rfl
      · dsimp only
        rw [if_pos rfl]

/-- Witness for C6: with the shipped config, an empty history and an
all-absent indicator set, both detectors return no opportunity. -/
theorem detectors_abstain_without_atr_witness :
    detect_breakout shippedConfig [] 0 allAbsentIndicators 10 = Except.ok none ∧
    detect_dca_opportunity shippedConfig [] allAbsentIndicators = Except.ok none :=
  detectors_abstain_without_atr shippedConfig [] 0 allAbsentIndicators 10
    (Or.inl rfl)

/-- An indicator set whose only present field is a positive ATR. -/
def atrOnlyInd : IndicatorSet :=
  { rsi := none, macd_line := none, macd_histogram := none, macd_signal := none,
    bb_lower := none, bb_middle := none, bb_upper := none, atr := some 1 }

/-- C3 (failing input): with the config module exactly as shipped in
src/config.py, enough history points and a positive ATR, both
detect_dca_opportunity and detect_breakout reach the read of the
undefined config attribute (DCA_ATR_MULTIPLIER resp.
BREAKOUT_ATR_MULTIPLIER) and raise AttributeError instead of returning
normally. -/
theorem detectors_attribute_error_on_shipped_config :
    detect_dca_opportunity shippedConfig [100, 100, 100, 100, 100] atrOnlyInd
      = Except.error PyError.attributeError ∧
    detect_breakout shippedConfig
      [100, 100, 100, 100, 100, 100, 100, 100, 100, 100] 100 atrOnlyInd 10
      = Except.error PyError.attributeError :=
  ⟨rfl, rfl⟩

/-- Price history of the spec example for the range detector. -/
def c4History : List ℚ :=
  [100, 100, 100, 100, 100, 100, 100, 100, 100, 103]

/-- Evaluation of the range detector on the spec example history at
tolerance 0.03: the range is tight (spread 3 over average 100.3) and the
proposal is buy = 101, sell = 101.97.  Shared by the theorems below. -/
theorem range_example_eval :
    detect_range_opportunity c4History (3/100)
      = some { mn := 100, mx := 103, buy := 101, sell := 10197/100 } := by
  norm_num [detect_range_opportunity, c4History, lastN, pyMax, pyMin, max_def, min_def]

/-- C7: detect_range_opportunity never returns a proposal whose buy level
is greater than or equal to its sell level. -/
theorem range_never_buy_ge_sell (ph : List ℚ) (tol : ℚ) (r : RangeOpp)
    (h : detect_range_opportunity ph tol = some r) : r.buy < r.sell := by
  unfold detect_range_opportunity at h
  dsimp only at h
  split_ifs at h with h1 h2 h3
  injection h with h4
  subst h4
  exact not_le.mp h3

/-- Witness for C7 at the concrete history [100 x9, 103] with tolerance
0.03, where the detector returns a proposal with buy 101 and sell 101.97. -/
theorem range_never_buy_ge_sell_witness :
    RangeOpp.buy { mn := 100, mx := 103, buy := 101, sell := 10197/100 }
      < RangeOpp.sell { mn := 100, mx := 103, buy := 101, sell := 10197/100 } :=
  range_never_buy_ge_sell c4History (3/100)
    { mn := 100, mx := 103, buy := 101, sell := 10197/100 } range_example_eval

/-- C4 (counterexample): on price history [100 x9, 103] with tolerance
0.03 the range detector does NOT report no opportunity — it returns a
proposal, contradicting the claimed None result. -/
theorem range_example_not_none :
    detect_range_opportunity c4History (3/100) ≠ none := by
  rw [range_example_eval]
  simp

/-- C4 (amended): on that history the range is classified tight and the
detector returns the proposal with min 100, max 103, buy = 100 * 1.01
= 101.0 and sell = 103 * 0.99 = 101.97, so buy < sell and an opportunity
is reported. -/
theorem range_example_value :
    detect_range_opportunity c4History (3/100)
      = some { mn := 100, mx := 103, buy := 101, sell := 10197/100 }
    ∧ (101 : ℚ) < 10197 / 100 :=
  ⟨range_example_eval, by norm_num⟩
